import Mathlib

/-!
Shallow embedding of the Fluid Resource Mapper core
(`pkg/mapper/mapper.go`, `pkg/mapper/runtime.go`, `pkg/mapper/resources.go`,
`pkg/types`), together with theorems settling the specification claims.

Modelling conventions:
* Go `map[string]interface{}` / `unstructured.Unstructured` objects become a
  JSON-like inductive `Value`; Go type assertions (`v.(string)`) become
  pattern matches on it.
* Go string maps become ordered association lists with first-match lookup.
* The `k8s.Client` interface becomes a structure of functions; Go
  `(T, error)` results become `Except String T`.  The `ctx` parameter is
  transport detail and dropped.
* Wall-clock reads (`time.Now` / `time.Since`) become explicit `Nat`
  parameters `now` (seconds, one instant per mapping call) and `endTime`
  (the second read taken for `metadata.duration`).
* Go enum-like string types (`RuntimeType`, `ComponentType`, `WarningLevel`,
  `ResourcePhase`) stay `String`, with the constants of `pkg/types` as defs.
-/

namespace Fluid

/-- JSON-like value modelling Go `interface{}` contents of unstructured
objects. Numeric fields carry `Int` (the `int64`/`float64` branches of
`getInt64Field` collapse to one numeric case). -/
inductive Value where
  | null
  | str (s : String)
  | int (n : Int)
  | arr (xs : List Value)
  | obj (fields : List (String × Value))
deriving Repr

/-- First-match lookup in an association list, modelling Go map indexing. -/
def lookupField : List (String × Value) → String → Option Value
  | [], _ => none
  | (k, v) :: rest, key => if k == key then some v else lookupField rest key

/-- Models `unstructured.NestedMap(obj, key)` returning the nested map when
the field is present and is a map. -/
def getMapField (fields : List (String × Value)) (key : String) :
    Option (List (String × Value)) :=
  match lookupField fields key with
  | some (.obj m) => some m
  | _ => none

/-- `getStringField` from runtime.go: safe string extraction with `""`
default. -/
def getStringField (m : List (String × Value)) (key : String) : String :=
  match lookupField m key with
  | some (.str v) => v
  | _ => ""

/-- `getInt64Field` from runtime.go: safe numeric extraction with `0`
default. -/
def getInt64Field (m : List (String × Value)) (key : String) : Int :=
  match lookupField m key with
  | some (.int v) => v
  | _ => 0

/-- A `*unstructured.Unstructured` object: `GetName`/`GetNamespace` are
library accessors, modelled as explicit fields; `object` is the raw field
tree (we keep the top-level keys, e.g. "status" and "spec"). -/
structure Unstructured where
  name : String
  namespace_ : String
  object : List (String × Value)
deriving Repr

/-! ## pkg/types -/

def WarningLevelError : String := "error"
def WarningLevelWarning : String := "warning"
def WarningLevelInfo : String := "info"

def PhaseReady : String := "Ready"
def PhaseNotReady : String := "NotReady"
def PhasePending : String := "Pending"
def PhaseFailed : String := "Failed"
def PhaseUnknown : String := "Unknown"
def PhaseBound : String := "Bound"
def PhaseNotBound : String := "NotBound"

def ComponentMaster : String := "master"
def ComponentWorker : String := "worker"
def ComponentFuse : String := "fuse"
def ComponentStorage : String := "storage"
def ComponentConfig : String := "config"

def RuntimeTypeAlluxio : String := "alluxio"
def RuntimeTypeJindo : String := "jindo"
def RuntimeTypeJuiceFS : String := "juicefs"
def RuntimeTypeGooseFS : String := "goosefs"
def RuntimeTypeVineyard : String := "vineyard"
def RuntimeTypeEFC : String := "efc"
def RuntimeTypeThin : String := "thin"

/-- The `WarningCodes` table of pkg/types. -/
structure WarningCodesT where
  datasetNotFound : String
  runtimeNotBound : String
  runtimeNotFound : String
  masterMissing : String
  workerMissing : String
  fuseMissing : String
  podsNotReady : String
  pvcMissing : String
  pvNotBound : String
  configMapMissing : String
  orphanedResource : String
  unknownRuntimeType : String
  partialCreation : String
  scalingInProgress : String
  deletionInProgress : String

def WarningCodes : WarningCodesT :=
  { datasetNotFound := "DATASET_NOT_FOUND"
    runtimeNotBound := "RUNTIME_NOT_BOUND"
    runtimeNotFound := "RUNTIME_NOT_FOUND"
    masterMissing := "MASTER_MISSING"
    workerMissing := "WORKER_MISSING"
    fuseMissing := "FUSE_MISSING"
    podsNotReady := "PODS_NOT_READY"
    pvcMissing := "PVC_MISSING"
    pvNotBound := "PV_NOT_BOUND"
    configMapMissing := "CONFIGMAP_MISSING"
    orphanedResource := "ORPHANED_RESOURCE"
    unknownRuntimeType := "UNKNOWN_RUNTIME_TYPE"
    partialCreation := "PARTIAL_CREATION"
    scalingInProgress := "SCALING_IN_PROGRESS"
    deletionInProgress := "DELETION_IN_PROGRESS" }

structure ConditionBrief where
  type : String := ""
  status : String := ""
  reason : String := ""
  message : String := ""
  lastTransitionTime : String := ""
deriving Repr, DecidableEq

structure DatasetNode where
  name : String := ""
  namespace_ : String := ""
  phase : String := ""
  ufsTotal : String := ""
  cached : String := ""
  cachedPercentage : String := ""
  conditions : List ConditionBrief := []
  mountPoints : List String := []
deriving Repr, DecidableEq

structure RuntimeNode where
  name : String := ""
  namespace_ : String := ""
  type : String := ""
  masterPhase : String := ""
  workerPhase : String := ""
  fusePhase : String := ""
  masterReady : String := ""
  workerReady : String := ""
  fuseReady : String := ""
  conditions : List ConditionBrief := []
deriving Repr, DecidableEq

structure ResourceStatus where
  phase : String := ""
  ready : String := ""
  message : String := ""
  age : String := ""
deriving Repr, DecidableEq

structure OwnerInfo where
  kind : String := ""
  name : String := ""
  uid : String := ""
deriving Repr, DecidableEq

/-- `K8sResourceNode` is recursive through `children` (pods nested under
their workload set), hence an inductive with accessor functions. -/
inductive K8sResourceNode where
  | mk (kind apiVersion name namespace_ component : String)
      (status : ResourceStatus) (owner : Option OwnerInfo)
      (labels details : List (String × String))
      (children : List K8sResourceNode)
deriving Repr

def K8sResourceNode.kind : K8sResourceNode → String
  | .mk k _ _ _ _ _ _ _ _ _ => k

def K8sResourceNode.apiVersion : K8sResourceNode → String
  | .mk _ a _ _ _ _ _ _ _ _ => a

def K8sResourceNode.name : K8sResourceNode → String
  | .mk _ _ n _ _ _ _ _ _ _ => n

def K8sResourceNode.namespace_ : K8sResourceNode → String
  | .mk _ _ _ ns _ _ _ _ _ _ => ns

def K8sResourceNode.component : K8sResourceNode → String
  | .mk _ _ _ _ c _ _ _ _ _ => c

def K8sResourceNode.status : K8sResourceNode → ResourceStatus
  | .mk _ _ _ _ _ st _ _ _ _ => st

def K8sResourceNode.owner : K8sResourceNode → Option OwnerInfo
  | .mk _ _ _ _ _ _ ow _ _ _ => ow

def K8sResourceNode.labels : K8sResourceNode → List (String × String)
  | .mk _ _ _ _ _ _ _ lb _ _ => lb

def K8sResourceNode.details : K8sResourceNode → List (String × String)
  | .mk _ _ _ _ _ _ _ _ dt _ => dt

def K8sResourceNode.children : K8sResourceNode → List K8sResourceNode
  | .mk _ _ _ _ _ _ _ _ _ ch => ch

structure MappingWarning where
  level : String := ""
  code : String := ""
  message : String := ""
  resource : String := ""
  suggestion : String := ""
deriving Repr, DecidableEq

structure GraphMetadata where
  mappedAt : Nat := 0
  duration : String := ""
  clusterName : String := ""
  version : String := ""
  mockMode : Bool := false
deriving Repr, DecidableEq

structure ResourceGraph where
  dataset : DatasetNode := {}
  runtime : Option RuntimeNode := none
  resources : List K8sResourceNode := []
  warnings : List MappingWarning := []
  metadata : GraphMetadata := {}
deriving Repr

/-- `(*ResourceGraph).IsHealthy` from pkg/types: the loop returning `false`
at the first `error`-level warning. -/
def ResourceGraph.IsHealthy (g : ResourceGraph) : Bool :=
  g.warnings.all fun w => !(w.level == WarningLevelError)

/-- `(*ResourceGraph).GetResourcesByComponent` from pkg/types. -/
def ResourceGraph.GetResourcesByComponent (g : ResourceGraph)
    (component : String) : List K8sResourceNode :=
  g.resources.filter fun r => r.component == component

/-! ## k8s API objects (external library types, restricted to the fields
the mapper reads). Creation timestamps are seconds. -/

structure OwnerRef where
  kind : String := ""
  name : String := ""
  uid : String := ""
deriving Repr, DecidableEq

structure StatefulSet where
  name : String := ""
  namespace_ : String := ""
  labels : List (String × String) := []
  /-- `*sts.Spec.Replicas`, dereferenced unconditionally by the mapper. -/
  replicas : Int := 0
  readyReplicas : Int := 0
  ownerReferences : List OwnerRef := []
  creationTimestamp : Nat := 0
deriving Repr, DecidableEq

structure DaemonSet where
  name : String := ""
  namespace_ : String := ""
  labels : List (String × String) := []
  desiredNumberScheduled : Int := 0
  numberReady : Int := 0
  ownerReferences : List OwnerRef := []
  creationTimestamp : Nat := 0
deriving Repr, DecidableEq

structure Pod where
  name : String := ""
  namespace_ : String := ""
  labels : List (String × String) := []
  phase : String := ""
  ownerReferences : List OwnerRef := []
  creationTimestamp : Nat := 0
deriving Repr, DecidableEq

structure PVC where
  name : String := ""
  namespace_ : String := ""
  labels : List (String × String) := []
  phase : String := ""
  volumeName : String := ""
  creationTimestamp : Nat := 0
deriving Repr, DecidableEq

structure PV where
  name : String := ""
  phase : String := ""
  creationTimestamp : Nat := 0
deriving Repr, DecidableEq

structure ConfigMap where
  name : String := ""
  namespace_ : String := ""
  labels : List (String × String) := []
  /-- `len(cm.Data)`: the mapper only reads the key count. -/
  dataKeys : Nat := 0
  creationTimestamp : Nat := 0
deriving Repr, DecidableEq

structure SecretObj where
  name : String := ""
  namespace_ : String := ""
  labels : List (String × String) := []
  type : String := ""
  dataKeys : Nat := 0
  creationTimestamp : Nat := 0
deriving Repr, DecidableEq

/-- The `k8s.Client` interface (the mapper's query-interface dependency),
as a structure of pure functions. `ListDatasets`/`ListPVs` are unused by
the mapper and omitted. -/
structure Client where
  getClusterName : String
  getDataset : String → String → Except String Unstructured
  getRuntime : String → String → String → Except String Unstructured
  listStatefulSets : String → String → Except String (List StatefulSet)
  listDaemonSets : String → String → Except String (List DaemonSet)
  listPods : String → String → Except String (List Pod)
  listPVCs : String → String → Except String (List PVC)
  getPV : String → Except String PV
  listConfigMaps : String → String → Except String (List ConfigMap)
  listSecrets : String → String → Except String (List SecretObj)

/-! ## pkg/mapper: parsing (runtime.go) -/

/-- `parseDataset` from runtime.go. The Go function's `error` result is
always nil, so it returns the node directly here. -/
def parseDataset (obj : Unstructured) : DatasetNode :=
  let base : DatasetNode := { name := obj.name, namespace_ := obj.namespace_ }
  let withStatus :=
    match getMapField obj.object "status" with
    | none => base
    | some status =>
      let s1 :=
        match lookupField status "phase" with
        | some (.str phase) => { base with phase := phase }
        | _ => base
      let s2 :=
        match lookupField status "ufsTotal" with
        | some (.str u) => { s1 with ufsTotal := u }
        | _ => s1
      let s3 :=
        match getMapField status "cacheStates" with
        | none => s2
        | some cs =>
          let a :=
            match lookupField cs "cached" with
            | some (.str c) => { s2 with cached := c }
            | _ => s2
          match lookupField cs "cachedPercentage" with
          | some (.str p) => { a with cachedPercentage := p }
          | _ => a
      match lookupField status "conditions" with
      | some (.arr conds) =>
        { s3 with conditions := conds.filterMap fun c =>
            match c with
            | .obj cond => some
                { type := getStringField cond "type"
                  status := getStringField cond "status"
                  reason := getStringField cond "reason"
                  message := getStringField cond "message"
                  lastTransitionTime := getStringField cond "lastTransitionTime" }
            | _ => none }
      | _ => s3
  match getMapField obj.object "spec" with
  | none => withStatus
  | some spec =>
    match lookupField spec "mounts" with
    | some (.arr mounts) =>
      { withStatus with mountPoints := mounts.filterMap fun m =>
          match m with
          | .obj mount =>
            match lookupField mount "mountPoint" with
            | some (.str mp) => some mp
            | _ => none
          | _ => none }
    | _ => withStatus

/-- `parseRuntime` from runtime.go (always returns a nil error in Go). -/
def parseRuntime (obj : Unstructured) (runtimeType : String) : RuntimeNode :=
  let base : RuntimeNode :=
    { name := obj.name, namespace_ := obj.namespace_, type := runtimeType }
  match getMapField obj.object "status" with
  | none => base
  | some status =>
    let s1 :=
      match lookupField status "masterPhase" with
      | some (.str p) => { base with masterPhase := p }
      | _ => base
    let s2 :=
      match lookupField status "workerPhase" with
      | some (.str p) => { s1 with workerPhase := p }
      | _ => s1
    let s3 :=
      match lookupField status "fusePhase" with
      | some (.str p) => { s2 with fusePhase := p }
      | _ => s2
    let masterCurrent := getInt64Field status "currentMasterNumberScheduled"
    let masterDesired := getInt64Field status "desiredMasterNumberScheduled"
    let s4 := if masterDesired > 0 then
        { s3 with masterReady := s!"{masterCurrent}/{masterDesired}" }
      else s3
    let workerCurrent := getInt64Field status "currentWorkerNumberScheduled"
    let workerDesired := getInt64Field status "desiredWorkerNumberScheduled"
    let s5 := if workerDesired > 0 then
        { s4 with workerReady := s!"{workerCurrent}/{workerDesired}" }
      else s4
    let fuseCurrent := getInt64Field status "currentFuseNumberScheduled"
    let fuseDesired := getInt64Field status "desiredFuseNumberScheduled"
    let s6 := if fuseDesired > 0 then
        { s5 with fuseReady := s!"{fuseCurrent}/{fuseDesired}" }
      else s5
    match lookupField status "conditions" with
    | some (.arr conds) =>
      { s6 with conditions := conds.filterMap fun c =>
          match c with
          | .obj cond => some
              { type := getStringField cond "type"
                status := getStringField cond "status"
                reason := getStringField cond "reason"
                message := getStringField cond "message"
                lastTransitionTime := getStringField cond "lastTransitionTime" }
          | _ => none }
    | _ => s6

/-- `getRuntimeTypeFromDataset` from runtime.go: the (type, name, namespace)
of the first entry of `.status.runtimes`, each `""` when absent.  The Go
`error` result is always nil, so only the triple is returned. -/
def getRuntimeTypeFromDataset (obj : Unstructured) : String × String × String :=
  match getMapField obj.object "status" with
  | none => ("", "", "")
  | some status =>
    match lookupField status "runtimes" with
    | some (.arr runtimes) =>
      match runtimes with
      | .obj runtime :: _ =>
        (getStringField runtime "type", getStringField runtime "name",
         getStringField runtime "namespace")
      | _ => ("", "", "")
    | _ => ("", "", "")

/-- `RuntimeComponents` from runtime.go. -/
structure RuntimeComponents where
  hasMaster : Bool
  hasWorker : Bool
  hasFuse : Bool
deriving Repr, DecidableEq

/-- `GetRuntimeComponents` from runtime.go: the static per-type component
matrix. -/
def GetRuntimeComponents (runtimeType : String) : RuntimeComponents :=
  if runtimeType == RuntimeTypeAlluxio || runtimeType == RuntimeTypeJindo
      || runtimeType == RuntimeTypeGooseFS || runtimeType == RuntimeTypeVineyard
      || runtimeType == RuntimeTypeEFC then
    { hasMaster := true, hasWorker := true, hasFuse := true }
  else if runtimeType == RuntimeTypeJuiceFS then
    { hasMaster := false, hasWorker := true, hasFuse := true }
  else if runtimeType == RuntimeTypeThin then
    { hasMaster := false, hasWorker := false, hasFuse := true }
  else
    { hasMaster := true, hasWorker := true, hasFuse := true }

/-- `ComponentRoles` from resources.go: the per-runtime-type role-label
vocabulary (unused by the mapper's classification logic). -/
def ComponentRoles : List (String × List String) :=
  [(ComponentMaster,
    ["alluxio-master", "jindo-master", "juicefs-master", "goosefs-master",
     "vineyard-master", "efc-master"]),
   (ComponentWorker,
    ["alluxio-worker", "jindo-worker", "juicefs-worker", "goosefs-worker",
     "vineyard-worker", "efc-worker"]),
   (ComponentFuse,
    ["alluxio-fuse", "jindo-fuse", "juicefs-fuse", "goosefs-fuse",
     "vineyard-fuse", "efc-fuse"])]

/-! ## pkg/mapper: helpers (mapper.go, bottom) -/

/-- `findSubstring` from mapper.go: the scan
`for i := 0; i <= len(s)-len(substr); i++`.  In Go a negative bound skips
the loop; with `Nat` truncation the single extra probe at `i = 0` compares
lists of different lengths and also yields `false`. -/
def findSubstring (s substr : String) : Bool :=
  let sl := s.toList
  let pl := substr.toList
  (List.range (sl.length - pl.length + 1)).any fun i =>
    (sl.drop i).take pl.length == pl

/-- `contains` from mapper.go: the (redundant) disjunction of equality,
suffix, prefix, and scan tests, guarded by a length check.
Go byte slicing is modelled as character-list slicing. -/
def contains (s substr : String) : Bool :=
  let sl := s.toList
  let pl := substr.toList
  decide (sl.length ≥ pl.length) &&
    (s == substr
      || (decide (sl.length > pl.length)
            && sl.drop (sl.length - pl.length) == pl)
      || sl.take pl.length == pl
      || findSubstring s substr)

/-- Go map indexing `labels["role"]` (zero value `""` when absent). -/
def lookupLabel : List (String × String) → String → String
  | [], _ => ""
  | (k, v) :: rest, key => if k == key then v else lookupLabel rest key

/-- `determineComponent` from mapper.go: substring matching on the `role`
label, with the zero `ComponentType("")` fallback. -/
def determineComponent (labels : List (String × String)) : String :=
  let role := lookupLabel labels "role"
  if contains role "master" then ComponentMaster
  else if contains role "worker" then ComponentWorker
  else if contains role "fuse" then ComponentFuse
  else ""

/-- `filterLabels` from mapper.go: keep only the relevant label keys. -/
def filterLabels (labels : List (String × String)) : List (String × String) :=
  labels.filter fun kv =>
    kv.1 == "release" || kv.1 == "app" || kv.1 == "role" || kv.1 == "component"

/-- `formatAge` from mapper.go: `time.Since(t)` bucketed into s/m/h/d.
`now` is the wall clock at the call (seconds); Go's float truncation on
nonnegative durations is `Nat` division. -/
def formatAge (now t : Nat) : String :=
  let d := now - t
  if d < 60 then s!"{d}s"
  else if d < 3600 then s!"{d / 60}m"
  else if d < 86400 then s!"{d / 3600}h"
  else s!"{d / 86400}d"

/-- Rendering of `time.Since(startTime).String()` for `metadata.duration`;
the library's exact duration format is immaterial to the mapping logic. -/
def durationString (d : Nat) : String := s!"{d}"

/-! ## pkg/mapper: pipeline (mapper.go) -/

def MapperVersion : String := "1.0.0"

/-- `Options` from mapper.go. -/
structure Options where
  includePods : Bool
  includeConfigs : Bool
  includeStorage : Bool
deriving Repr, DecidableEq

/-- `DefaultOptions` from mapper.go. -/
def DefaultOptions : Options :=
  { includePods := true, includeConfigs := true, includeStorage := true }

/-- `resolveDataset` from mapper.go: fetch then parse (parse never fails). -/
def resolveDataset (c : Client) (name namespace_ : String) :
    Except String DatasetNode :=
  (c.getDataset name namespace_).map parseDataset

/-- `resolveRuntime` from mapper.go: requires phase Bound, then fetches the
Runtime with the hardcoded type `"alluxio"` (the source comment reads
"For now, use the dataset name to find the runtime / In a real
implementation, we'd check .status.runtimes"). -/
def resolveRuntime (c : Client) (dataset : DatasetNode) :
    Except String RuntimeNode :=
  if dataset.phase != "Bound" then
    .error s!"dataset is not bound (phase: {dataset.phase})"
  else
    let runtimeType := "alluxio"
    (c.getRuntime runtimeType dataset.name dataset.namespace_).map
      fun obj => parseRuntime obj runtimeType

/-- The per-pod ownership test of `discoverPodsForWorkload`: an owner
reference naming the workload, or the strict name-prefix fallback. -/
def podOwnedBy (workloadName : String) (pod : Pod) : Bool :=
  pod.ownerReferences.any (fun ref => ref.name == workloadName)
    || (decide (pod.name.toList.length > workloadName.toList.length)
          && pod.name.toList.take workloadName.toList.length
              == workloadName.toList)

/-- The pod node built in the `discoverPodsForWorkload` loop. -/
def podNode (now : Nat) (pod : Pod) : K8sResourceNode :=
  .mk "Pod" "v1" pod.name pod.namespace_ (determineComponent pod.labels)
    { phase := if pod.phase != "Running" then pod.phase else PhaseReady
      ready := ""
      message := pod.phase
      age := formatAge now pod.creationTimestamp }
    none (filterLabels pod.labels) [] []

/-- `discoverPodsForWorkload` from mapper.go.  NOTE: a `ListPods` failure
returns empty results with NO warning (the error is dropped). -/
def discoverPodsForWorkload (c : Client) (now : Nat)
    (namespace_ workloadName : String) :
    List K8sResourceNode × List MappingWarning :=
  match c.listPods namespace_ "" with
  | .error _ => ([], [])
  | .ok pods =>
    ((pods.filter (podOwnedBy workloadName)).map (podNode now), [])

/-- The StatefulSet node built in the `discoverStatefulSets` loop,
including the pod children sub-discovery (whose warnings are discarded
with `pods, _ :=` in the source). -/
def stsNode (c : Client) (now : Nat) (namespace_ : String) (opts : Options)
    (sts : StatefulSet) : K8sResourceNode :=
  let component := determineComponent sts.labels
  let phase := if sts.readyReplicas < sts.replicas then PhaseNotReady
    else PhaseReady
  let r := sts.readyReplicas
  let d := sts.replicas
  .mk "StatefulSet" "apps/v1" sts.name sts.namespace_ component
    { phase := phase
      ready := s!"{r}/{d}"
      message := ""
      age := formatAge now sts.creationTimestamp }
    (match sts.ownerReferences with
     | ref :: _ => some { kind := ref.kind, name := ref.name, uid := ref.uid }
     | [] => none)
    (filterLabels sts.labels) []
    (if opts.includePods then
      (discoverPodsForWorkload c now namespace_ sts.name).1
    else [])

/-- `discoverStatefulSets` from mapper.go. -/
def discoverStatefulSets (c : Client) (now : Nat)
    (namespace_ labelSelector : String) (opts : Options) :
    List K8sResourceNode × List MappingWarning :=
  match c.listStatefulSets namespace_ labelSelector with
  | .error e =>
    ([], [{ level := WarningLevelWarning, code := "STS_LIST_FAILED"
            message := s!"Failed to list StatefulSets: {e}" }])
  | .ok items => (items.map (stsNode c now namespace_ opts), [])

/-- The DaemonSet node built in the `discoverDaemonSets` loop. -/
def dsNode (now : Nat) (ds : DaemonSet) : K8sResourceNode :=
  let phase := if ds.numberReady < ds.desiredNumberScheduled then PhaseNotReady
    else PhaseReady
  let r := ds.numberReady
  let d := ds.desiredNumberScheduled
  .mk "DaemonSet" "apps/v1" ds.name ds.namespace_ ComponentFuse
    { phase := phase
      ready := s!"{r}/{d}"
      message := ""
      age := formatAge now ds.creationTimestamp }
    (match ds.ownerReferences with
     | ref :: _ => some { kind := ref.kind, name := ref.name, uid := ref.uid }
     | [] => none)
    (filterLabels ds.labels) [] []

/-- `discoverDaemonSets` from mapper.go. -/
def discoverDaemonSets (c : Client) (now : Nat)
    (namespace_ labelSelector : String) (_opts : Options) :
    List K8sResourceNode × List MappingWarning :=
  match c.listDaemonSets namespace_ labelSelector with
  | .error e =>
    ([], [{ level := WarningLevelWarning, code := "DS_LIST_FAILED"
            message := s!"Failed to list DaemonSets: {e}" }])
  | .ok items => (items.map (dsNode now), [])

/-- The PVC node built in the `discoverStorage` loop. -/
def pvcNode (now : Nat) (pvc : PVC) : K8sResourceNode :=
  .mk "PersistentVolumeClaim" "v1" pvc.name pvc.namespace_ ComponentStorage
    { phase := if pvc.phase != "Bound" then PhaseNotBound else PhaseBound
      ready := ""
      message := ""
      age := formatAge now pvc.creationTimestamp }
    none [] [("volumeName", pvc.volumeName)] []

/-- The PV node built for a bound claim in `discoverStorage`. -/
def pvNode (now : Nat) (pvcName : String) (pv : PV) : K8sResourceNode :=
  .mk "PersistentVolume" "v1" pv.name "" ComponentStorage
    { phase := pv.phase
      ready := ""
      message := ""
      age := formatAge now pv.creationTimestamp }
    (some { kind := "PersistentVolumeClaim", name := pvcName, uid := "" })
    [] [] []

/-- `discoverStorage` from mapper.go.  NOTE: a `GetPV` failure is silently
ignored (`if err == nil`), yielding no PV node and NO warning. -/
def discoverStorage (c : Client) (now : Nat)
    (namespace_ labelSelector : String) :
    List K8sResourceNode × List MappingWarning :=
  match c.listPVCs namespace_ labelSelector with
  | .error e =>
    ([], [{ level := WarningLevelWarning, code := "PVC_LIST_FAILED"
            message := s!"Failed to list PVCs: {e}" }])
  | .ok items =>
    (items.flatMap fun pvc =>
      pvcNode now pvc ::
        (if pvc.volumeName != "" then
          match c.getPV pvc.volumeName with
          | .ok pv => [pvNode now pvc.name pv]
          | .error _ => []
        else []),
     [])

/-- The ConfigMap node built in the `discoverConfigs` loop. -/
def cmNode (now : Nat) (cm : ConfigMap) : K8sResourceNode :=
  let k := cm.dataKeys
  .mk "ConfigMap" "v1" cm.name cm.namespace_ ComponentConfig
    { phase := PhaseReady, ready := "", message := ""
      age := formatAge now cm.creationTimestamp }
    none [] [("keys", s!"{k}")] []

/-- The Secret node built in the `discoverConfigs` loop. -/
def secretNode (now : Nat) (secret : SecretObj) : K8sResourceNode :=
  let t := secret.type
  let k := secret.dataKeys
  .mk "Secret" "v1" secret.name secret.namespace_ ComponentConfig
    { phase := PhaseReady, ready := "", message := ""
      age := formatAge now secret.creationTimestamp }
    none [] [("type", t), ("keys", s!"{k}")] []

/-- `discoverConfigs` from mapper.go: ConfigMaps then Secrets; each list
failure yields its warning and the other listing still runs. -/
def discoverConfigs (c : Client) (now : Nat)
    (namespace_ labelSelector : String) :
    List K8sResourceNode × List MappingWarning :=
  let (cmResources, cmWarnings) :=
    match c.listConfigMaps namespace_ labelSelector with
    | .error e =>
      (([] : List K8sResourceNode),
       ([{ level := WarningLevelWarning, code := "CM_LIST_FAILED"
           message := s!"Failed to list ConfigMaps: {e}" }] :
         List MappingWarning))
    | .ok items => (items.map (cmNode now), [])
  let (secretResources, secretWarnings) :=
    match c.listSecrets namespace_ labelSelector with
    | .error e =>
      (([] : List K8sResourceNode),
       ([{ level := WarningLevelWarning, code := "SECRET_LIST_FAILED"
           message := s!"Failed to list Secrets: {e}" }] :
         List MappingWarning))
    | .ok items => (items.map (secretNode now), [])
  (cmResources ++ secretResources, cmWarnings ++ secretWarnings)

/-- `discoverResources` from mapper.go.  The `runtime` parameter is passed
by the source but never read. -/
def discoverResources (c : Client) (now : Nat) (name namespace_ : String)
    (_runtime : Option RuntimeNode) (opts : Options) :
    List K8sResourceNode × List MappingWarning :=
  let labelSelector := s!"release={name}"
  let sts := discoverStatefulSets c now namespace_ labelSelector opts
  let ds := discoverDaemonSets c now namespace_ labelSelector opts
  let storage :=
    if opts.includeStorage then discoverStorage c now namespace_ labelSelector
    else ([], [])
  let configs :=
    if opts.includeConfigs then discoverConfigs c now namespace_ labelSelector
    else ([], [])
  (sts.1 ++ ds.1 ++ storage.1 ++ configs.1,
   sts.2 ++ ds.2 ++ storage.2 ++ configs.2)

/-- `detectWarnings` from mapper.go: the missing-component checks (guarded
only by `runtime != nil`, NOT by the component matrix) followed by the
not-ready scan over the top-level resources. -/
def detectWarnings (graph : ResourceGraph) (runtime : Option RuntimeNode) :
    List MappingWarning :=
  let masters := graph.GetResourcesByComponent ComponentMaster
  let w1 := if masters.length == 0 && runtime.isSome then
      [{ level := WarningLevelError, code := WarningCodes.masterMissing
         message := "No Master StatefulSet found"
         suggestion := "Check if the runtime controller is running correctly" }]
    else []
  let workers := graph.GetResourcesByComponent ComponentWorker
  let w2 := if workers.length == 0 && runtime.isSome then
      [{ level := WarningLevelError, code := WarningCodes.workerMissing
         message := "No Worker StatefulSet found"
         suggestion := "Check if the runtime controller is running correctly" }]
    else []
  let fuseResources := graph.GetResourcesByComponent ComponentFuse
  let w3 := if fuseResources.length == 0 && runtime.isSome then
      [{ level := WarningLevelWarning, code := WarningCodes.fuseMissing
         message := "No Fuse DaemonSet found"
         suggestion := "Fuse pods are created on-demand when data is accessed" }]
    else []
  let notReady := graph.resources.filterMap fun res =>
    if res.status.phase == PhaseNotReady || res.status.phase == PhaseFailed then
      let k := res.kind
      let n := res.name
      let r := res.status.ready
      some { level := WarningLevelWarning, code := WarningCodes.podsNotReady
             message := s!"{k} {n} is not ready ({r})", resource := n }
    else none
  w1 ++ w2 ++ w3 ++ notReady

/-- `MapFromDataset` from mapper.go: the four-stage pipeline.  `now` is the
wall clock at `startTime` (also used for every age rendering in the call);
`endTime` is the clock at the final `time.Since(startTime)`.  The Go
`error` result is the second component; both source return sites yield
`nil`. -/
def mapFromDataset (c : Client) (name namespace_ : String) (opts : Options)
    (now endTime : Nat) : ResourceGraph × Option String :=
  let metadata0 : GraphMetadata :=
    { mappedAt := now, clusterName := c.getClusterName,
      version := MapperVersion }
  match resolveDataset c name namespace_ with
  | .error err =>
    ({ dataset := {}
       runtime := none
       resources := []
       warnings :=
         [{ level := WarningLevelError, code := WarningCodes.datasetNotFound
            message := s!"Failed to get Dataset {namespace_}/{name}: {err}"
            resource := name
            suggestion := "Verify the Dataset name and namespace are correct" }]
       metadata := { metadata0 with duration := durationString (endTime - now) } },
     none)
  | .ok dataset =>
    let rr := resolveRuntime c dataset
    let runtime : Option RuntimeNode :=
      match rr with
      | .error _ => none
      | .ok rt => some rt
    let runtimeWarnings : List MappingWarning :=
      match rr with
      | .error err =>
        [{ level := WarningLevelWarning, code := WarningCodes.runtimeNotBound
           message := s!"No Runtime bound to Dataset: {err}"
           resource := name
           suggestion := "Create a Runtime CR with the same name as the Dataset" }]
      | .ok _ => []
    let dres := discoverResources c now name namespace_ runtime opts
    let partialGraph : ResourceGraph :=
      { dataset := dataset
        runtime := runtime
        resources := dres.1
        warnings := runtimeWarnings ++ dres.2
        metadata := metadata0 }
    ({ partialGraph with
        warnings := partialGraph.warnings ++ detectWarnings partialGraph runtime
        metadata := { metadata0 with duration := durationString (endTime - now) } },
     none)

/-! ## Auxiliary definitions for the verification theorems -/

/-- The fields of a resource node that `detectWarnings` inspects. -/
structure NodeSig where
  kind : String
  name : String
  component : String
  phase : String
  ready : String
deriving Repr, DecidableEq

/-- Projection of a node to its warning-relevant fields. -/
def nodeSig (n : K8sResourceNode) : NodeSig :=
  { kind := n.kind, name := n.name, component := n.component,
    phase := n.status.phase, ready := n.status.ready }

/-- The not-ready rule of `detectWarnings`, expressed on node
signatures. -/
def notReadySigWarn (t : NodeSig) : Option MappingWarning :=
  if t.phase == PhaseNotReady || t.phase == PhaseFailed then
    let k := t.kind
    let n := t.name
    let r := t.ready
    some { level := WarningLevelWarning, code := WarningCodes.podsNotReady
           message := s!"{k} {n} is not ready ({r})", resource := n }
  else none

mutual

/-- Erase the (wall-clock dependent) age string of a node, recursively
through its children. -/
def eraseNodeAge : K8sResourceNode → K8sResourceNode
  | .mk k a n ns c st ow lb dt ch =>
    .mk k a n ns c { st with age := "" } ow lb dt (eraseNodesAge ch)

/-- Erase ages across a node list. -/
def eraseNodesAge : List K8sResourceNode → List K8sResourceNode
  | [] => []
  | x :: xs => eraseNodeAge x :: eraseNodesAge xs

end

/-- Erase everything the wall clock can influence in a graph: the
`mappedAt` timestamp, the `duration` string, and every node age. -/
def eraseGraphTime (g : ResourceGraph) : ResourceGraph :=
  { g with
      resources := eraseNodesAge g.resources
      metadata := { g.metadata with mappedAt := 0, duration := "" } }

/-- A query interface where every object is absent and every list empty. -/
def mockEmptyClient : Client :=
  { getClusterName := "test-cluster"
    getDataset := fun _ _ => .error "datasets.data.fluid.io not found"
    getRuntime := fun _ _ _ => .error "runtime not found"
    listStatefulSets := fun _ _ => .ok []
    listDaemonSets := fun _ _ => .ok []
    listPods := fun _ _ => .ok []
    listPVCs := fun _ _ => .ok []
    getPV := fun _ => .error "persistentvolume not found"
    listConfigMaps := fun _ _ => .ok []
    listSecrets := fun _ _ => .ok [] }

/-- A client whose Dataset fetch fails with a fixed transport error. -/
def failingDatasetClient : Client :=
  { mockEmptyClient with
      getDataset := fun _ _ => .error "connection refused" }

/-- A client returning a Dataset whose phase is NotBound. -/
def notBoundClient : Client :=
  { mockEmptyClient with
      getDataset := fun n ns => .ok {
        name := n, namespace_ := ns
        object := [("status", .obj [("phase", .str "NotBound")])] } }

/-- A Bound Dataset CR whose `.status.runtimes` declares a juicefs
runtime as its (single) bound runtime. -/
def boundJuicefsDatasetObj : Unstructured :=
  { name := "demo", namespace_ := "ns"
    object := [("status", .obj
      [("phase", .str "Bound"),
       ("runtimes", .arr [.obj
         [("type", .str "juicefs"), ("name", .str "demo"),
          ("namespace", .str "ns")]])])] }

/-- A client that serves the juicefs-bound Dataset and can serve ONLY
AlluxioRuntime objects (any other runtime type is unknown to it). -/
def alluxioOnlyClient : Client :=
  { mockEmptyClient with
      getDataset := fun _ _ => .ok boundJuicefsDatasetObj
      getRuntime := fun t n ns =>
        if t == "alluxio" then .ok { name := n, namespace_ := ns, object := [] }
        else .error "unknown runtime type" }

/-- A client that serves the juicefs-bound Dataset and can serve ONLY
JuiceFSRuntime objects. -/
def juicefsOnlyClient : Client :=
  { mockEmptyClient with
      getDataset := fun _ _ => .ok boundJuicefsDatasetObj
      getRuntime := fun t n ns =>
        if t == "juicefs" then .ok { name := n, namespace_ := ns, object := [] }
        else .error "unknown runtime type" }

/-- A resolved juicefs Runtime snapshot. -/
def juicefsRuntime : RuntimeNode :=
  { name := "demo", namespace_ := "ns", type := RuntimeTypeJuiceFS }

/-- A resolved thin Runtime snapshot. -/
def thinRuntime : RuntimeNode :=
  { name := "demo", namespace_ := "ns", type := RuntimeTypeThin }

/-- A resolved alluxio Runtime snapshot. -/
def alluxioRuntime : RuntimeNode :=
  { name := "demo", namespace_ := "ns", type := RuntimeTypeAlluxio }

/-- A graph for a juicefs runtime with no discovered resources. -/
def juicefsGraph : ResourceGraph :=
  { dataset := { name := "demo", namespace_ := "ns", phase := "Bound" }
    runtime := some juicefsRuntime }

/-- A graph for a thin runtime with no discovered resources. -/
def thinGraph : ResourceGraph :=
  { dataset := { name := "demo", namespace_ := "ns", phase := "Bound" }
    runtime := some thinRuntime }

/-- A node carrying the release label whose owner-reference kind
(`Deployment`) is outside the known Runtime-kind set. -/
def orphanNode : K8sResourceNode :=
  .mk "StatefulSet" "apps/v1" "demo-master" "ns" ComponentMaster
    { phase := PhaseReady, ready := "1/1" }
    (some { kind := "Deployment", name := "rogue", uid := "u1" })
    [("release", "demo")] [] []

/-- A graph containing only the orphaned node. -/
def orphanGraph : ResourceGraph :=
  { dataset := { name := "demo", namespace_ := "ns", phase := "Bound" }
    runtime := some alluxioRuntime
    resources := [orphanNode] }

/-- A client where every labelled listing fails with its own error. -/
def failingListsClient (e1 e2 e3 e4 e5 : String) : Client :=
  { mockEmptyClient with
      listStatefulSets := fun _ _ => .error e1
      listDaemonSets := fun _ _ => .error e2
      listPVCs := fun _ _ => .error e3
      listConfigMaps := fun _ _ => .error e4
      listSecrets := fun _ _ => .error e5 }

/-- A client whose pod listing fails. -/
def podsFailClient (e : String) : Client :=
  { mockEmptyClient with listPods := fun _ _ => .error e }

/-- A bound claim whose backing volume is `v0`. -/
def boundPvc : PVC :=
  { name := "demo", namespace_ := "ns", phase := "Bound",
    volumeName := "v0", creationTimestamp := 0 }

/-- A client with one bound claim whose backing-volume fetch fails. -/
def pvFailClient (e : String) : Client :=
  { mockEmptyClient with
      listPVCs := fun _ _ => .ok [boundPvc]
      getPV := fun _ => .error e }

/-- A client with a NotBound Dataset and one ConfigMap created at time 0,
so that the mapped graph contains a node with an age. -/
def ageClient : Client :=
  { notBoundClient with
      listConfigMaps := fun _ _ => .ok
        [{ name := "cm1", namespace_ := "ns", dataKeys := 3,
           creationTimestamp := 0 }] }

/-- A client with a single discoverable StatefulSet whose role label
matches no known vocabulary entry. -/
def oddRoleStsClient : Client :=
  { mockEmptyClient with
      listStatefulSets := fun _ _ => .ok
        [{ name := "demo-x", namespace_ := "ns",
           labels := [("release", "demo"), ("role", "zookeeper")],
           replicas := 1, readyReplicas := 1 }] }

/-! ## Theorems -/

/-- C10: for every client implementation and every input, `MapFromDataset`
returns a nil error — all failure modes surface only as warnings inside
the returned graph. -/
theorem mapFromDataset_error_always_nil (c : Client) (name namespace_ : String)
    (opts : Options) (now endTime : Nat) :
    (mapFromDataset c name namespace_ opts now endTime).2 = none := by
  unfold mapFromDataset
  cases resolveDataset c name namespace_ <;> rfl

/-- C7: for every constructed resource graph, `IsHealthy` returns true if
and only if the graph contains zero warnings at level `error`. -/
theorem isHealthy_iff_no_error_level_warning (g : ResourceGraph) :
    g.IsHealthy = true ↔ ∀ w ∈ g.warnings, w.level ≠ WarningLevelError := by
  simp [ResourceGraph.IsHealthy]

/-- C5: if the Dataset fetch itself fails, `MapFromDataset` short-circuits:
nil error, exactly one `error`-level `DATASET_NOT_FOUND` warning, absent
runtime, empty resources — and the result depends on nothing else of the
client (so runtime resolution, discovery and warning detection never
run). -/
theorem mapFromDataset_dataset_fetch_failure_short_circuits
    (c : Client) (name namespace_ : String) (opts : Options)
    (now endTime : Nat) (err : String)
    (h : c.getDataset name namespace_ = .error err) :
    mapFromDataset c name namespace_ opts now endTime =
      ({ dataset := {}
         runtime := none
         resources := []
         warnings :=
           [{ level := WarningLevelError
              code := WarningCodes.datasetNotFound
              message := s!"Failed to get Dataset {namespace_}/{name}: {err}"
              resource := name
              suggestion := "Verify the Dataset name and namespace are correct" }]
         metadata :=
           { mappedAt := now
             duration := durationString (endTime - now)
             clusterName := c.getClusterName
             version := MapperVersion } }, none) := by
  unfold mapFromDataset resolveDataset
  rw [h]
  rfl

/-- Witness for C5 at a concrete failing client. -/
theorem mapFromDataset_dataset_fetch_failure_short_circuits_witness :
    failingDatasetClient.getDataset "demo" "ns" = .error "connection refused" ∧
    mapFromDataset failingDatasetClient "demo" "ns" DefaultOptions 5 7 =
      ({ dataset := {}
         runtime := none
         resources := []
         warnings :=
           [{ level := WarningLevelError
              code := WarningCodes.datasetNotFound
              message := "Failed to get Dataset ns/demo: connection refused"
              resource := "demo"
              suggestion := "Verify the Dataset name and namespace are correct" }]
         metadata :=
           { mappedAt := 5
             duration := durationString 2
             clusterName := "test-cluster"
             version := MapperVersion } }, none) :=
  ⟨rfl, mapFromDataset_dataset_fetch_failure_short_circuits
    failingDatasetClient "demo" "ns" DefaultOptions 5 7 "connection refused" rfl⟩

/-- C1 (code bug): the component matrix marks juicefs master-less and thin
worker-less, yet `detectWarnings` — which never consults
`GetRuntimeComponents` — emits MASTER_MISSING for a resolved juicefs
runtime and WORKER_MISSING for a resolved thin runtime. -/
theorem detectWarnings_spurious_missing_for_componentless_types :
    (GetRuntimeComponents RuntimeTypeJuiceFS).hasMaster = false ∧
    ((detectWarnings juicefsGraph (some juicefsRuntime)).any
      fun w => w.code == WarningCodes.masterMissing) = true ∧
    (GetRuntimeComponents RuntimeTypeThin).hasWorker = false ∧
    ((detectWarnings thinGraph (some thinRuntime)).any
      fun w => w.code == WarningCodes.workerMissing) = true := by
  decide

/-- C4 (code bug): `detectWarnings` performs no orphan detection — a node
with the release label whose owner kind is outside the Runtime-kind set
is never flagged ORPHANED_RESOURCE. -/
theorem detectWarnings_never_flags_orphaned_resource :
    (orphanNode.labels.any fun kv => kv.1 == "release") = true ∧
    orphanNode.owner = some { kind := "Deployment", name := "rogue", uid := "u1" } ∧
    ((detectWarnings orphanGraph (some alluxioRuntime)).all
      fun w => !(w.code == WarningCodes.orphanedResource)) = true := by
  decide

/-- C2 (code bug): for a Bound Dataset declaring `juicefs` as the first
entry of `.status.runtimes`, `resolveRuntime` still dispatches the fetch
with the hardcoded type `alluxio`: a client that only knows juicefs
runtimes fails, a client that only knows alluxio runtimes succeeds with a
snapshot typed `alluxio`. -/
theorem resolveRuntime_ignores_declared_runtime_type :
    (getRuntimeTypeFromDataset boundJuicefsDatasetObj).1 = "juicefs" ∧
    (parseDataset boundJuicefsDatasetObj).phase = "Bound" ∧
    ((resolveRuntime alluxioOnlyClient (parseDataset boundJuicefsDatasetObj)).map
      fun rt => rt.type) = .ok "alluxio" ∧
    resolveRuntime juicefsOnlyClient (parseDataset boundJuicefsDatasetObj) =
      .error "unknown runtime type" :=
  ⟨rfl, rfl, rfl, rfl⟩

/-- C3 (counterexample): a Dataset that resolves with phase NotBound does
NOT yield a warning-free graph — the graph carries exactly a
RUNTIME_NOT_BOUND warning, like every other non-Bound phase. -/
theorem mapFromDataset_notBound_graph_is_not_warning_free :
    ((mapFromDataset notBoundClient "demo" "ns" DefaultOptions 0 0).1.warnings.map
      fun w => w.code) = [WarningCodes.runtimeNotBound] ∧
    (mapFromDataset notBoundClient "demo" "ns" DefaultOptions 0 0).1.warnings ≠ [] := by
  exact ⟨rfl, by decide⟩

/-- C3 (amended): for every Dataset that resolves successfully with any
phase other than Bound — NotBound included, the case is not distinguished —
the graph contains a warning-level RUNTIME_NOT_BOUND warning. -/
theorem mapFromDataset_nonBound_phase_warns_runtime_not_bound
    (c : Client) (name namespace_ : String) (opts : Options)
    (now endTime : Nat) (u : Unstructured)
    (hds : c.getDataset name namespace_ = .ok u)
    (hphase : (parseDataset u).phase ≠ "Bound") :
    ∃ w ∈ (mapFromDataset c name namespace_ opts now endTime).1.warnings,
      w.level = WarningLevelWarning ∧ w.code = WarningCodes.runtimeNotBound := by
  have hres : resolveDataset c name namespace_ = .ok (parseDataset u) := by
    unfold resolveDataset; rw [hds]; rfl
  have hrr : resolveRuntime c (parseDataset u) =
      .error s!"dataset is not bound (phase: {(parseDataset u).phase})" := by
    unfold resolveRuntime
    rw [if_pos (by simpa using hphase)]
  unfold mapFromDataset
  simp only [hres, hrr]
  exact ⟨_, List.mem_append_left _ (List.mem_append_left _ (List.mem_singleton_self _)), rfl, rfl⟩

/-- Witness for C3's amended theorem at the concrete NotBound client. -/
theorem mapFromDataset_nonBound_phase_warns_runtime_not_bound_witness :
    ∃ w ∈ (mapFromDataset notBoundClient "demo" "ns" DefaultOptions 0 0).1.warnings,
      w.level = WarningLevelWarning ∧ w.code = WarningCodes.runtimeNotBound :=
  mapFromDataset_nonBound_phase_warns_runtime_not_bound notBoundClient "demo" "ns"
    DefaultOptions 0 0
    { name := "demo", namespace_ := "ns"
      object := [("status", .obj [("phase", .str "NotBound")])] }
    rfl (by decide)

/-- C6 (amended): StatefulSet, DaemonSet, PVC, ConfigMap and Secret list
failures each become a kind-specific warning-level warning while the
remaining discovery steps still run (all five appear together); pod-list
failures and backing-volume fetch failures, however, are silently dropped
with no warning. -/
theorem discovery_failure_warning_policy
    (e1 e2 e3 e4 e5 epod epv : String) (now : Nat)
    (name namespace_ sel workloadName : String) :
    discoverResources (failingListsClient e1 e2 e3 e4 e5) now name namespace_
        none DefaultOptions =
      ([],
       [{ level := WarningLevelWarning, code := "STS_LIST_FAILED"
          message := s!"Failed to list StatefulSets: {e1}" },
        { level := WarningLevelWarning, code := "DS_LIST_FAILED"
          message := s!"Failed to list DaemonSets: {e2}" },
        { level := WarningLevelWarning, code := "PVC_LIST_FAILED"
          message := s!"Failed to list PVCs: {e3}" },
        { level := WarningLevelWarning, code := "CM_LIST_FAILED"
          message := s!"Failed to list ConfigMaps: {e4}" },
        { level := WarningLevelWarning, code := "SECRET_LIST_FAILED"
          message := s!"Failed to list Secrets: {e5}" }]) ∧
    discoverPodsForWorkload (podsFailClient epod) now namespace_ workloadName
      = ([], []) ∧
    discoverStorage (pvFailClient epv) now namespace_ sel
      = ([pvcNode now boundPvc], []) := by
  exact ⟨rfl, rfl, rfl⟩

/-- C6 (counterexample): a backing-volume fetch failure during storage
discovery produces NO warning at all — the claim that every list/fetch
failure is converted into a warning fails here. -/
theorem pv_fetch_failure_produces_no_warning :
    (pvFailClient "forbidden").getPV "v0" = .error "forbidden" ∧
    ((discoverStorage (pvFailClient "forbidden") 0 "ns" "release=demo").1.map
      fun n => n.kind) = ["PersistentVolumeClaim"] ∧
    (discoverStorage (pvFailClient "forbidden") 0 "ns" "release=demo").2 = [] := by
  exact ⟨rfl, rfl, rfl⟩

/-- The `findSubstring` scan succeeds exactly on substring (contiguous)
occurrences. -/
theorem findSubstring_eq_true_iff (s substr : String) :
    findSubstring s substr = true ↔ substr.toList <:+: s.toList := by
  unfold findSubstring
  simp only [List.any_eq_true, List.mem_range, beq_iff_eq]
  constructor
  · rintro ⟨i, _, heq⟩
    refine ⟨s.toList.take i, (s.toList.drop i).drop substr.toList.length, ?_⟩
    rw [List.append_assoc]
    nth_rewrite 1 [← heq]
    rw [List.take_append_drop, List.take_append_drop]
  · rintro ⟨u, v, huv⟩
    refine ⟨u.length, ?_, ?_⟩
    · have hlen := congrArg List.length huv
      simp only [List.length_append] at hlen
      omega
    · rw [← huv, List.append_assoc, List.drop_left, List.take_left]

/-- The Go `contains` helper is (despite its redundant disjuncts) exactly
substring containment. -/
theorem contains_eq_true_iff (s substr : String) :
    contains s substr = true ↔ substr.toList <:+: s.toList := by
  unfold contains
  simp only [Bool.and_eq_true, Bool.or_eq_true, decide_eq_true_eq, beq_iff_eq,
    findSubstring_eq_true_iff]
  constructor
  · rintro ⟨-, ((h | ⟨-, h⟩) | h) | h⟩
    · cases h; exact List.infix_rfl
    · rw [← h]; exact (List.drop_suffix _ _).isInfix
    · rw [← h]; exact (List.take_prefix _ _).isInfix
    · exact h
  · intro h
    exact ⟨h.length_le, Or.inr h⟩

/-- C8 (counterexample): the bare role label "master" matches NO entry of
the per-runtime-type `ComponentRoles` vocabulary, yet `determineComponent`
classifies it as the master component — classification is not
vocabulary-based. -/
theorem determineComponent_not_vocabulary_based :
    determineComponent [("role", "master")] = ComponentMaster ∧
    (ComponentRoles.all fun p => p.2.all fun entry => !(entry == "master"))
      = true := by
  decide

/-- C8 (amended): structural role is decided by substring containment of
"master"/"worker"/"fuse" (in that priority) in the role label; an object
whose role matches none gets the empty component tag `""` (no distinct
"unknown" constant exists) and is still kept: discovery emits one node per
listed object. -/
theorem determineComponent_substring_semantics :
    (∀ labels : List (String × String),
      determineComponent labels =
        (if "master".toList <:+: (lookupLabel labels "role").toList then
          ComponentMaster
        else if "worker".toList <:+: (lookupLabel labels "role").toList then
          ComponentWorker
        else if "fuse".toList <:+: (lookupLabel labels "role").toList then
          ComponentFuse
        else "")) ∧
    (∀ (c : Client) (now : Nat) (namespace_ sel : String) (opts : Options)
        (items : List StatefulSet),
      c.listStatefulSets namespace_ sel = .ok items →
        (discoverStatefulSets c now namespace_ sel opts).1.length
          = items.length) := by
  constructor
  · intro labels
    have e1 := contains_eq_true_iff (lookupLabel labels "role") "master"
    have e2 := contains_eq_true_iff (lookupLabel labels "role") "worker"
    have e3 := contains_eq_true_iff (lookupLabel labels "role") "fuse"
    unfold determineComponent
    by_cases h1 : contains (lookupLabel labels "role") "master" = true
    · rw [if_pos h1, if_pos (e1.mp h1)]
    · rw [if_neg h1, if_neg ((not_congr e1).mp h1)]
      by_cases h2 : contains (lookupLabel labels "role") "worker" = true
      · rw [if_pos h2, if_pos (e2.mp h2)]
      · rw [if_neg h2, if_neg ((not_congr e2).mp h2)]
        by_cases h3 : contains (lookupLabel labels "role") "fuse" = true
        · rw [if_pos h3, if_pos (e3.mp h3)]
        · rw [if_neg h3, if_neg ((not_congr e3).mp h3)]
  · intro c now namespace_ sel opts items h
    unfold discoverStatefulSets
    rw [h]
    simp

/-- Witness for C8's amended theorem: an object with the unrecognized role
label "zookeeper" is still emitted as a node, and concrete labels evaluate
per the substring semantics. -/
theorem determineComponent_substring_semantics_witness :
    determineComponent [("role", "alluxio-master")] =
      (if "master".toList <:+: (lookupLabel [("role", "alluxio-master")] "role").toList
        then ComponentMaster
      else if "worker".toList <:+: (lookupLabel [("role", "alluxio-master")] "role").toList
        then ComponentWorker
      else if "fuse".toList <:+: (lookupLabel [("role", "alluxio-master")] "role").toList
        then ComponentFuse
      else "") ∧
    (discoverStatefulSets oddRoleStsClient 0 "ns" "release=demo"
      DefaultOptions).1.length = 1 :=
  ⟨determineComponent_substring_semantics.1 [("role", "alluxio-master")],
   determineComponent_substring_semantics.2 oddRoleStsClient 0 "ns"
     "release=demo" DefaultOptions _ rfl⟩

theorem eraseNodesAge_eq_map (l : List K8sResourceNode) :
    eraseNodesAge l = l.map eraseNodeAge := by
  induction l with
  | nil => rfl
  | cons x xs ih => simp [eraseNodesAge, ih]

theorem nodeSig_eraseNodeAge (n : K8sResourceNode) :
    nodeSig (eraseNodeAge n) = nodeSig n := by
  cases n; rfl

theorem map_nodeSig_of_eraseNodesAge_eq {r1 r2 : List K8sResourceNode}
    (h : eraseNodesAge r1 = eraseNodesAge r2) :
    r1.map nodeSig = r2.map nodeSig := by
  have aux : ∀ l : List K8sResourceNode,
      (eraseNodesAge l).map nodeSig = l.map nodeSig := by
    intro l
    rw [eraseNodesAge_eq_map, List.map_map]
    exact List.map_congr_left fun a _ => nodeSig_eraseNodeAge a
  rw [← aux r1, h, aux r2]

/-- `detectWarnings` only inspects the warning-relevant node signature of
the top-level resource list. -/
theorem detectWarnings_sig_congr (g1 g2 : ResourceGraph)
    (rt : Option RuntimeNode)
    (h : g1.resources.map nodeSig = g2.resources.map nodeSig) :
    detectWarnings g1 rt = detectWarnings g2 rt := by
  unfold detectWarnings ResourceGraph.GetResourcesByComponent
  have hcount : ∀ comp : String,
      (g1.resources.filter fun r => r.component == comp).length =
        (g2.resources.filter fun r => r.component == comp).length := by
    intro comp
    rw [← List.countP_eq_length_filter, ← List.countP_eq_length_filter]
    rw [show (fun r : K8sResourceNode => r.component == comp)
        = (fun t : NodeSig => t.component == comp) ∘ nodeSig from rfl]
    rw [← List.countP_map, ← List.countP_map, h]
  have hfm :
      g1.resources.filterMap (notReadySigWarn ∘ nodeSig) =
        g2.resources.filterMap (notReadySigWarn ∘ nodeSig) := by
    rw [← List.filterMap_map, ← List.filterMap_map, h]
  rw [show (fun res : K8sResourceNode =>
        if res.status.phase == PhaseNotReady
            || res.status.phase == PhaseFailed then
          let k := res.kind
          let n := res.name
          let r := res.status.ready
          some { level := WarningLevelWarning, code := WarningCodes.podsNotReady
                 message := s!"{k} {n} is not ready ({r})", resource := n }
        else none)
      = notReadySigWarn ∘ nodeSig from rfl]
  simp only [hcount ComponentMaster, hcount ComponentWorker,
    hcount ComponentFuse, hfm]

theorem eraseNodesAge_append (a b : List K8sResourceNode) :
    eraseNodesAge (a ++ b) = eraseNodesAge a ++ eraseNodesAge b := by
  rw [eraseNodesAge_eq_map, eraseNodesAge_eq_map, eraseNodesAge_eq_map,
    List.map_append]

/-- Pod discovery differs across invocation times only in node ages; its
warnings are identical. -/
theorem discoverPodsForWorkload_time (c : Client) (namespace_ w : String)
    (now now' : Nat) :
    eraseNodesAge (discoverPodsForWorkload c now namespace_ w).1
        = eraseNodesAge (discoverPodsForWorkload c now' namespace_ w).1 ∧
      (discoverPodsForWorkload c now namespace_ w).2
        = (discoverPodsForWorkload c now' namespace_ w).2 := by
  unfold discoverPodsForWorkload
  cases c.listPods namespace_ "" with
  | error e => exact ⟨rfl, rfl⟩
  | ok pods =>
    refine ⟨?_, rfl⟩
    rw [eraseNodesAge_eq_map, eraseNodesAge_eq_map, List.map_map, List.map_map]
    exact List.map_congr_left fun p _ => rfl

theorem eraseNodeAge_stsNode (c : Client) (namespace_ : String)
    (opts : Options) (sts : StatefulSet) (now now' : Nat) :
    eraseNodeAge (stsNode c now namespace_ opts sts)
      = eraseNodeAge (stsNode c now' namespace_ opts sts) := by
  simp only [stsNode, eraseNodeAge]
  by_cases h : opts.includePods
  · simp only [h, if_true]
    rw [(discoverPodsForWorkload_time c namespace_ sts.name now now').1]
  · simp only [h]
    rfl

theorem discoverStatefulSets_time (c : Client) (namespace_ sel : String)
    (opts : Options) (now now' : Nat) :
    eraseNodesAge (discoverStatefulSets c now namespace_ sel opts).1
        = eraseNodesAge (discoverStatefulSets c now' namespace_ sel opts).1 ∧
      (discoverStatefulSets c now namespace_ sel opts).2
        = (discoverStatefulSets c now' namespace_ sel opts).2 := by
  unfold discoverStatefulSets
  cases c.listStatefulSets namespace_ sel with
  | error e => exact ⟨rfl, rfl⟩
  | ok items =>
    refine ⟨?_, rfl⟩
    rw [eraseNodesAge_eq_map, eraseNodesAge_eq_map, List.map_map, List.map_map]
    exact List.map_congr_left fun sts _ =>
      eraseNodeAge_stsNode c namespace_ opts sts now now'

theorem discoverDaemonSets_time (c : Client) (namespace_ sel : String)
    (opts : Options) (now now' : Nat) :
    eraseNodesAge (discoverDaemonSets c now namespace_ sel opts).1
        = eraseNodesAge (discoverDaemonSets c now' namespace_ sel opts).1 ∧
      (discoverDaemonSets c now namespace_ sel opts).2
        = (discoverDaemonSets c now' namespace_ sel opts).2 := by
  unfold discoverDaemonSets
  cases c.listDaemonSets namespace_ sel with
  | error e => exact ⟨rfl, rfl⟩
  | ok items =>
    refine ⟨?_, rfl⟩
    rw [eraseNodesAge_eq_map, eraseNodesAge_eq_map, List.map_map, List.map_map]
    exact List.map_congr_left fun ds _ => rfl

theorem discoverStorage_time (c : Client) (namespace_ sel : String)
    (now now' : Nat) :
    eraseNodesAge (discoverStorage c now namespace_ sel).1
        = eraseNodesAge (discoverStorage c now' namespace_ sel).1 ∧
      (discoverStorage c now namespace_ sel).2
        = (discoverStorage c now' namespace_ sel).2 := by
  unfold discoverStorage
  cases c.listPVCs namespace_ sel with
  | error e => exact ⟨rfl, rfl⟩
  | ok items =>
    refine ⟨?_, rfl⟩
    rw [eraseNodesAge_eq_map, eraseNodesAge_eq_map, List.map_flatMap,
      List.map_flatMap, List.flatMap_def, List.flatMap_def]
    refine congrArg List.flatten (List.map_congr_left fun pvc _ => ?_)
    by_cases hv : pvc.volumeName != ""
    · simp only [hv, if_true]
      cases c.getPV pvc.volumeName with
      | error e => rfl
      | ok pv => rfl
    · simp only [hv]
      rfl

theorem discoverConfigs_time (c : Client) (namespace_ sel : String)
    (now now' : Nat) :
    eraseNodesAge (discoverConfigs c now namespace_ sel).1
        = eraseNodesAge (discoverConfigs c now' namespace_ sel).1 ∧
      (discoverConfigs c now namespace_ sel).2
        = (discoverConfigs c now' namespace_ sel).2 := by
  unfold discoverConfigs
  cases c.listConfigMaps namespace_ sel with
  | error e =>
    cases c.listSecrets namespace_ sel with
    | error e2 => exact ⟨rfl, rfl⟩
    | ok secrets =>
      refine ⟨?_, rfl⟩
      simp only [List.nil_append]
      rw [eraseNodesAge_eq_map, eraseNodesAge_eq_map, List.map_map, List.map_map]
      exact List.map_congr_left fun sec _ => rfl
  | ok cms =>
    cases c.listSecrets namespace_ sel with
    | error e2 =>
      refine ⟨?_, rfl⟩
      simp only [List.append_nil]
      rw [eraseNodesAge_eq_map, eraseNodesAge_eq_map, List.map_map, List.map_map]
      exact List.map_congr_left fun cm _ => rfl
    | ok secrets =>
      refine ⟨?_, rfl⟩
      rw [eraseNodesAge_eq_map, eraseNodesAge_eq_map, List.map_append,
        List.map_append, List.map_map, List.map_map, List.map_map, List.map_map]
      exact congrArg₂ (· ++ ·)
        (List.map_congr_left fun cm _ => rfl)
        (List.map_congr_left fun sec _ => rfl)

/-- Discovery as a whole differs across invocation times only in node
ages; the discovery warnings are identical. -/
theorem discoverResources_time (c : Client) (name namespace_ : String)
    (rt : Option RuntimeNode) (opts : Options) (now now' : Nat) :
    eraseNodesAge (discoverResources c now name namespace_ rt opts).1
        = eraseNodesAge (discoverResources c now' name namespace_ rt opts).1 ∧
      (discoverResources c now name namespace_ rt opts).2
        = (discoverResources c now' name namespace_ rt opts).2 := by
  unfold discoverResources
  have hsto : eraseNodesAge (if opts.includeStorage then
          discoverStorage c now namespace_ s!"release={name}" else ([], [])).1
        = eraseNodesAge (if opts.includeStorage then
          discoverStorage c now' namespace_ s!"release={name}" else ([], [])).1 ∧
      (if opts.includeStorage then
          discoverStorage c now namespace_ s!"release={name}" else ([], [])).2
        = (if opts.includeStorage then
          discoverStorage c now' namespace_ s!"release={name}" else ([], [])).2 := by
    by_cases h : opts.includeStorage
    · simpa only [h, if_true] using
        discoverStorage_time c namespace_ s!"release={name}" now now'
    · simp only [h, if_false]
      exact ⟨rfl, rfl⟩
  have hcfg : eraseNodesAge (if opts.includeConfigs then
          discoverConfigs c now namespace_ s!"release={name}" else ([], [])).1
        = eraseNodesAge (if opts.includeConfigs then
          discoverConfigs c now' namespace_ s!"release={name}" else ([], [])).1 ∧
      (if opts.includeConfigs then
          discoverConfigs c now namespace_ s!"release={name}" else ([], [])).2
        = (if opts.includeConfigs then
          discoverConfigs c now' namespace_ s!"release={name}" else ([], [])).2 := by
    by_cases h : opts.includeConfigs
    · simpa only [h, if_true] using
        discoverConfigs_time c namespace_ s!"release={name}" now now'
    · simp only [h, if_false]
      exact ⟨rfl, rfl⟩
  constructor
  · simp only [eraseNodesAge_append]
    rw [(discoverStatefulSets_time c namespace_ s!"release={name}" opts now now').1,
      (discoverDaemonSets_time c namespace_ s!"release={name}" opts now now').1,
      hsto.1, hcfg.1]
  · simp only
    rw [(discoverStatefulSets_time c namespace_ s!"release={name}" opts now now').2,
      (discoverDaemonSets_time c namespace_ s!"release={name}" opts now now').2,
      hsto.2, hcfg.2]

/-- C9 (counterexample): two invocations against unchanged query-interface
responses but at different wall-clock instants differ in a per-node
`Status.Age` string ("30s" vs "1m"), i.e. in the `resources` field — not
only in `metadata.mappedAt`/`duration`. -/
theorem mapFromDataset_age_depends_on_call_time :
    ((mapFromDataset ageClient "demo" "ns" DefaultOptions 30 30).1.resources.map
      fun n => n.status.age) = ["30s"] ∧
    ((mapFromDataset ageClient "demo" "ns" DefaultOptions 90 90).1.resources.map
      fun n => n.status.age) = ["1m"] ∧
    (mapFromDataset ageClient "demo" "ns" DefaultOptions 30 30).1.resources ≠
      (mapFromDataset ageClient "demo" "ns" DefaultOptions 90 90).1.resources := by
  refine ⟨rfl, rfl, fun h => ?_⟩
  have h2 : (["30s"] : List String) = ["1m"] :=
    congrArg (List.map fun n : K8sResourceNode => n.status.age) h
  exact absurd h2 (by decide)

/-- C9 (amended): two invocations of `MapFromDataset` against identical
query-interface responses yield graphs equal in every field except
`metadata.mappedAt`, `metadata.duration`, and the per-node `Status.Age`
strings (which depend on the invocation instant); dataset, runtime, every
other node field, resource ordering and all warnings coincide. -/
theorem mapFromDataset_deterministic_modulo_time
    (c : Client) (name namespace_ : String) (opts : Options)
    (now1 end1 now2 end2 : Nat) :
    eraseGraphTime (mapFromDataset c name namespace_ opts now1 end1).1
      = eraseGraphTime (mapFromDataset c name namespace_ opts now2 end2).1 := by
  unfold mapFromDataset
  cases hds : resolveDataset c name namespace_ with
  | error e => rfl
  | ok ds =>
    dsimp only
    cases hrr : resolveRuntime c ds with
    | error err =>
      dsimp only
      have hdr := discoverResources_time c name namespace_ none opts now1 now2
      simp only [eraseGraphTime]
      congr 1
      · exact hdr.1
      · rw [hdr.2]
        exact congrArg _ (detectWarnings_sig_congr _ _ _
          (map_nodeSig_of_eraseNodesAge_eq hdr.1))
    | ok rt =>
      dsimp only
      have hdr := discoverResources_time c name namespace_ (some rt) opts now1 now2
      simp only [eraseGraphTime]
      congr 1
      · exact hdr.1
      · rw [hdr.2]
        exact congrArg _ (detectWarnings_sig_congr _ _ _
          (map_nodeSig_of_eraseNodesAge_eq hdr.1))

end Fluid
